import Mathlib

/-!
Verification development for the `rpi5-k8s-node-bootstrapper` repository.

The definitions below are a shallow embedding of the disk-geometry and
partition-resize engine of `src/node_bootstrapper/partition_manager.py`
(the variant the specification follows) together with the command runner
of `src/node_bootstrapper/utils.py`.

Modelling conventions:
* Python `int` is embedded as `ℤ`; Python floor division `//` is `Int.fdiv`
  and Python `%` (with the positive moduli used by the code) is `Int.emod`,
  which agrees with Python's `%` for positive divisors.
* Python `float` values (only the disk capacity, obtained by a division by
  the power of two `1024 ** 3`, and quantities derived from it) are embedded
  as `ℚ`; for device sizes far below `2 ^ 53` the IEEE-754 divisions by
  powers of two performed by the code are exact, so `ℚ` is faithful there.
* Functions whose Python counterpart can raise return `Except` / `Option`.
* The external world (stdout of the probing commands) is passed in
  explicitly, and the side-effecting command invocations are reified as a
  trace of `Cmd` values, in the order the code issues them.  The executor
  is assumed to report exit code 0 for the issued commands, matching the
  simulated-executor setting of the specification.
-/

namespace Bootstrapper

/-! ### `utils.run_command` (src/node_bootstrapper/utils.py, lines 21-58)

`subprocess.run(...)` yields a record with `stdout`, `stderr` and
`returncode`; `run_command` prints and then either returns that record
(exit code 0) or raises `typer.Abort()` (non-zero exit).  Printing is not
modelled; the control flow is. -/

structure CmdResult where
  stdout : String
  stderr : String
  returncode : ℤ
deriving DecidableEq

/-- Reasons for which the orchestrator run stops early.  `commandFailed`
models `typer.Abort` raised by `run_command` on a non-zero exit;
`missingTableData` models the `TypeError` Python raises when
`total_sectors - 1` is evaluated with `total_sectors = None`
(partition_manager.py line 262), the condition the specification calls
`MissingTableData`; `parseFailure` models the uncaught `ValueError` /
`IndexError` of a malformed partition-table line. -/
inductive AbortReason where
  | commandFailed
  | userAborted
  | invalidPath
  | tooSmall
  | exceedsCapacity
  | deviceNotEmpty
  | unsupportedTableType
  | missingPartition2
  | parseFailure
  | missingTableData
deriving DecidableEq

/-- `utils.run_command`, given the completed process: returns the result
record on exit code 0, raises (`.error`) otherwise. -/
def run_command (result : CmdResult) : Except AbortReason CmdResult :=
  if result.returncode ≠ 0 then .error .commandFailed else .ok result

/-! ### Character-level string helpers

These embed the Python string operations used by the parser.  They are
written as structural recursions on `List Char` so that every concrete
instance reduces inside the kernel. -/

/-- Is `pat` a prefix of `hay`? -/
def isPrefixOfCl : List Char → List Char → Bool
  | [], _ => true
  | _ :: _, [] => false
  | a :: as, b :: bs => a = b && isPrefixOfCl as bs

/-- Does `hay` contain `pat` as a contiguous substring?  Embeds Python's
`pat in hay`. -/
def containsSub (hay pat : List Char) : Bool :=
  match hay with
  | [] => isPrefixOfCl pat []
  | _ :: rest => isPrefixOfCl pat hay || containsSub rest pat

/-- Python's `pat in s` on strings. -/
def strContains (s pat : String) : Bool :=
  containsSub s.toList pat.toList

/-- Python's `s.split(sep)` for a one-character separator: splits on every
occurrence, keeping empty fields (`"".split(":") == [""]`). -/
def splitOnChar (sep : Char) : List Char → List (List Char)
  | [] => [[]]
  | c :: cs =>
    let rest := splitOnChar sep cs
    if c = sep then [] :: rest
    else
      match rest with
      | [] => [[c]]
      | r :: rs => (c :: r) :: rs

/-- Python's `s.replace("s", "")`: for the one-character pattern this
removes every `'s'`. -/
def replaceS (cs : List Char) : List Char :=
  cs.filter (fun c => c ≠ 's')

/-- Digit-string value; `none` when empty or containing a non-digit
(Python `int(...)` raises `ValueError` there). -/
def digitsVal? (cs : List Char) : Option ℕ :=
  match cs with
  | [] => none
  | _ =>
    cs.foldl
      (fun acc c =>
        match acc with
        | none => none
        | some n => if c.isDigit then some (n * 10 + (c.toNat - 48)) else none)
      (some 0)

/-- Python's `int(s)` for the plain decimal strings the parser feeds it:
optional leading minus sign, then decimal digits. -/
def pyInt? (s : String) : Option ℤ :=
  match s.toList with
  | '-' :: rest => (digitsVal? rest).map (fun n => -(n : ℤ))
  | cs => (digitsVal? cs).map (fun n => (n : ℤ))

/-! ### Partition table parser
(`partition_manager.get_partition_info`, lines 86-109)

`parted {device} -ms unit s print` output is parsed line by line:
lines containing `"BYT"` are skipped; the line containing the device path
yields `total_sectors`; every other line must be a colon-separated
partition record.  The Python dict `partition_info` is modelled as an
association list onto which new entries are prepended, so that the
first match on lookup is the most recent insertion (Python dict
overwrite semantics). -/

structure PartitionEntry where
  start : ℤ
  end_ : ℤ
  length : ℤ
  filesystem : String
deriving DecidableEq

abbrev PartitionInfo := List (String × PartitionEntry)

/-- `partition_info.get(k)`: most recent binding of `k`. -/
def lookupEntry (info : PartitionInfo) (k : String) : Option PartitionEntry :=
  (info.find? (fun p => p.1 = k)).map (fun p => p.2)

/-- `int(line.split(":")[1].replace("s", ""))` on the device summary line;
`none` models the `IndexError` / `ValueError` paths. -/
def parseDeviceLine (line : String) : Option ℤ :=
  match splitOnChar ':' line.toList with
  | _ :: f1 :: _ => pyInt? ⟨replaceS f1⟩
  | _ => none

/-- `index, start, end, length, filesystem = line.split(":")[:5]` followed
by the three `int(... .replace("s", ""))` conversions; `none` models the
`ValueError` paths (fewer than five fields, or a non-integer field). -/
def parsePartitionLine (line : String) : Option (String × PartitionEntry) :=
  match splitOnChar ':' line.toList with
  | idx :: st :: en :: len :: fs :: _ =>
    match pyInt? ⟨replaceS st⟩, pyInt? ⟨replaceS en⟩, pyInt? ⟨replaceS len⟩ with
    | some s, some e, some l => some (⟨idx⟩, ⟨s, e, l, ⟨fs⟩⟩)
    | _, _, _ => none
  | _ => none

/-- The parsing loop of `get_partition_info` over the `splitlines()` of the
table-print output, carrying `total_sectors` (initially `None`) and the
accumulated `partition_info`. -/
def parseLines (device : String) :
    List String → Option ℤ → PartitionInfo →
      Except AbortReason (Option ℤ × PartitionInfo)
  | [], total, acc => .ok (total, acc)
  | line :: rest, total, acc =>
    if strContains line "BYT" then parseLines device rest total acc
    else if strContains line device then
      match parseDeviceLine line with
      | some t => parseLines device rest (some t) acc
      | none => .error .parseFailure
    else
      match parsePartitionLine line with
      | some entry => parseLines device rest total (entry :: acc)
      | none => .error .parseFailure

/-- `get_partition_info` (lines 86-109), applied to the lines printed by
the partition-table print command. -/
def get_partition_info (device : String) (lines : List String) :
    Except AbortReason (Option ℤ × PartitionInfo) :=
  parseLines device lines none []

/-! ### Sector arithmetic -/

/-- `align_sector` (partition_manager.py lines 112-116):
`((sector + alignment - 1) // alignment) * alignment`, with the Python
default `alignment=2048`. -/
def align_sector (sector : ℤ) (alignment : ℤ := 2048) : ℤ :=
  ((sector + alignment - 1).fdiv alignment) * alignment

/-- The GB→sectors conversion of line 237:
`system_size * 1024 * 1024 * 1024 // 512`. -/
def gb_to_sectors (gb : ℤ) : ℤ :=
  (gb * 1024 * 1024 * 1024).fdiv 512

/-- `MIN_SYSTEM_SIZE` (line 21). -/
def MIN_SYSTEM_SIZE : ℤ := 20

/-- `get_disk_capacity` (lines 34-41): `size_bytes / (1024**3)`, Python
true division, embedded exactly in `ℚ`. -/
def get_disk_capacity (size_bytes : ℤ) : ℚ :=
  (size_bytes : ℚ) / (1024 ^ 3 : ℚ)

/-- Python `int(...)` applied to a float/rational: truncation toward
zero. -/
def pyTrunc (q : ℚ) : ℤ :=
  if q < 0 then ⌈q⌉ else ⌊q⌋

/-- `suggested_system_capacity` (line 140):
`int(max(disk_capacity_gb / 3, 100))`. -/
def suggested_system_capacity (size_bytes : ℤ) : ℤ :=
  pyTrunc (max (get_disk_capacity size_bytes / 3) 100)

/-! ### Capacity policy (lines 171-193)

The three size checks of `manage_partitions`, in source order.  The
`largeSizeWarning` outcome is not fatal by itself: the orchestrator then
consults the confirmation prompt. -/

inductive SizeCheck where
  | tooSmall
  | exceedsCapacity
  | largeSizeWarning
  | ok
deriving DecidableEq

/-- The capacity policy: `system_size < MIN_SYSTEM_SIZE`, then
`system_size > disk_capacity_gb`, then `system_size > disk_capacity_gb / 2`,
in that order. -/
def validate (requested_gb : ℤ) (disk_capacity_gb : ℚ) : SizeCheck :=
  if requested_gb < MIN_SYSTEM_SIZE then .tooSmall
  else if (requested_gb : ℚ) > disk_capacity_gb then .exceedsCapacity
  else if (requested_gb : ℚ) > disk_capacity_gb / 2 then .largeSizeWarning
  else .ok

/-- Lines 262-264: `additional_partition_end = total_sectors - 1`, rounded
down to a multiple of 2048 when not already aligned. -/
def additional_partition_end (total_sectors : ℤ) : ℤ :=
  let e := total_sectors - 1
  if e % 2048 ≠ 0 then e - e % 2048 else e

/-- The data-partition boundary computation (lines 261-265) as a function
of the parsed `total_sectors` and the new system-partition end.  With
`total_sectors = None` Python raises a `TypeError` at `total_sectors - 1`;
per the specification this is the `MissingTableData` condition.  On
success it returns `(additional_partition_start, additional_partition_end)`
as interpolated into the `mkpart` command. -/
def computeDataBounds (total_sectors : Option ℤ) (system_partition_new_end : ℤ) :
    Except AbortReason (ℤ × ℤ) :=
  match total_sectors with
  | none => .error .missingTableData
  | some t => .ok (align_sector (system_partition_new_end + 1), additional_partition_end t)

/-! ### The command trace of the orchestrator
(`partition_manager.manage_partitions`, lines 119-279)

Every external invocation the code makes (through `run_command`,
`subprocess.Popen` for `dd`, and `subprocess.run` for the settle delay) is
reified as a `Cmd`, recording exactly the values the code interpolates
into the command string. -/

inductive Cmd where
  /-- `partprobe {device}` (`refresh_device_state`). -/
  | partprobe (device : String)
  /-- `lsblk -b -d -o SIZE -n {device}` (`get_disk_capacity`). -/
  | lsblkSize (device : String)
  /-- `lsblk {device}` (`check_device_empty`). -/
  | lsblk (device : String)
  /-- `parted {device} --script mklabel msdos` (`erase_device`). -/
  | mklabelMsdos (device : String)
  /-- `dd if={image} of={device} bs=4M status=progress`
  (`copy_image_with_progress`). -/
  | ddCopy (image device : String)
  /-- `sleep 5` (the settle delay, line 211). -/
  | sleep5
  /-- `fdisk -l {device}` (table-type detection, line 214). -/
  | fdiskList (device : String)
  /-- `e2fsck -f -y {part} || true` (best-effort filesystem check). -/
  | e2fsck (part : String)
  /-- `parted {device} -ms unit s print` (`get_partition_info`). -/
  | partedPrint (device : String)
  /-- `parted {device} --script resizepart {index} {endSector}s` (line 244). -/
  | resizepart (device : String) (index endSector : ℤ)
  /-- `parted {device} --script mkpart primary {startSector}s {endSector}s`
  (line 267). -/
  | mkpart (device : String) (startSector endSector : ℤ)
  /-- `mkfs.ext4 {part}` (line 274). -/
  | mkfsExt4 (part : String)
deriving DecidableEq

/-- Partition-resize commands. -/
def isResizeCmd : Cmd → Bool
  | .resizepart _ _ _ => true
  | _ => false

/-- Partition-create commands. -/
def isCreateCmd : Cmd → Bool
  | .mkpart _ _ _ => true
  | _ => false

/-- Format commands. -/
def isFormatCmd : Cmd → Bool
  | .mkfsExt4 _ => true
  | _ => false

/-- The scalar inputs of one `manage_partitions` run, after the interactive
prompts have resolved: the CLI arguments, the prompted system size in GB
(the `IntPrompt` path, hence an integer), and the answers the confirmation
prompts would give.  `path_exists` stands for
`path.exists() and path.is_file()`; `is_img` for `path.suffix == ".img"`. -/
structure Inputs where
  device : String
  image_path : String
  system_size : ℤ
  force : Bool
  path_exists : Bool
  is_img : Bool
  confirm_non_img : Bool
  confirm_large : Bool
  confirm_erase : Bool

/-- The device-side observations of one run: the byte count printed by the
capacity query, the lines printed by `lsblk {device}`, the stdout of
`fdisk -l {device}`, and the lines printed by the partition-table print
command. -/
structure World where
  capacity_bytes : ℤ
  lsblk_lines : List String
  fdisk_out : String
  parted_lines : List String

/-- The marker `manage_partitions` looks for in the `fdisk -l` output
(line 215). -/
def dosMarker : String := "Disklabel type: dos"

/-- Lines 236-279: the plan computation and the destructive tail of the
run, given the parsed `total_sectors`, the start sector of partition 2 and
the requested size.  The resize command is issued before the data-partition
bounds are computed, exactly as in the source. -/
def planAndExecute (device : String) (total_sectors : Option ℤ)
    (p2start system_size : ℤ) : List Cmd × Option AbortReason :=
  let system_partition_new_end := align_sector (p2start + gb_to_sectors system_size)
  let t := [Cmd.resizepart device 2 system_partition_new_end,
            Cmd.e2fsck (device ++ "2")]
  match computeDataBounds total_sectors system_partition_new_end with
  | .error e => (t, some e)
  | .ok (dataStart, dataEnd) =>
    (t ++ [Cmd.mkpart device dataStart dataEnd,
           Cmd.mkfsExt4 (device ++ "3"),
           Cmd.e2fsck (device ++ "3")], none)

/-- Lines 206-234 and onward: image copy, settle delay, table-type
detection, then the system-partition check, re-probe and plan execution.
`tAcc` is the command trace accumulated so far. -/
def phaseDetect (i : Inputs) (w : World) (tAcc : List Cmd) :
    List Cmd × Option AbortReason :=
  let t2 := tAcc ++ [Cmd.ddCopy i.image_path i.device, Cmd.partprobe i.device,
                     Cmd.sleep5, Cmd.fdiskList i.device]
  if strContains w.fdisk_out dosMarker then
    let t3 := t2 ++ [Cmd.e2fsck (i.device ++ "2"), Cmd.partedPrint i.device]
    match get_partition_info i.device w.parted_lines with
    | .error e => (t3, some e)
    | .ok (total_sectors, partition_info) =>
      match lookupEntry partition_info "2" with
      | none => (t3, some .missingPartition2)
      | some p2 =>
        let r := planAndExecute i.device total_sectors p2.start i.system_size
        (t3 ++ r.1, r.2)
  else (t2, some .unsupportedTableType)

/-- Lines 195-204: the emptiness check and the optional forced erase. -/
def phaseEmpty (i : Inputs) (w : World) (tAcc : List Cmd) :
    List Cmd × Option AbortReason :=
  let t1 := tAcc ++ [Cmd.partprobe i.device, Cmd.lsblk i.device]
  if w.lsblk_lines.length ≤ 2 then phaseDetect i w t1
  else if i.force then
    if i.confirm_erase then
      phaseDetect i w (t1 ++ [Cmd.mklabelMsdos i.device, Cmd.partprobe i.device])
    else (t1, some .userAborted)
  else (t1, some .deviceNotEmpty)

/-- `manage_partitions` (lines 119-279) as a function from the resolved
inputs and the observed device state to the issued command trace and the
way the run ended (`none` = ran to completion). -/
def manage_partitions (i : Inputs) (w : World) : List Cmd × Option AbortReason :=
  let t0 := [Cmd.partprobe i.device, Cmd.lsblkSize i.device]
  let disk_capacity_gb := get_disk_capacity w.capacity_bytes
  if i.path_exists then
    if !i.is_img && !i.confirm_non_img then (t0, some .userAborted)
    else
      match validate i.system_size disk_capacity_gb with
      | .tooSmall => (t0, some .tooSmall)
      | .exceedsCapacity => (t0, some .exceedsCapacity)
      | .largeSizeWarning =>
        if i.confirm_large then phaseEmpty i w t0 else (t0, some .userAborted)
      | .ok => phaseEmpty i w t0
  else (t0, some .invalidPath)

/-! ## Demonstration inputs used by the concrete theorems

A 20 GB device (`20 * 2 ^ 30` bytes, `41943040` sectors of 512 bytes) that
already carries the base image, probed after the copy; the operator
requests a 20 GB system partition, which passes every capacity-policy
check (20 is not below the floor and does not exceed the 20 GB capacity),
yet leaves no room for the data partition. -/

def demoInputs : Inputs :=
  { device := "/dev/sda"
    image_path := "/root/base.img"
    system_size := 20
    force := false
    path_exists := true
    is_img := true
    confirm_non_img := true
    confirm_large := true
    confirm_erase := true }

def demoWorld : World :=
  { capacity_bytes := 21474836480
    lsblk_lines := ["NAME MAJ:MIN RM SIZE RO TYPE", "sda 8:0 0 20G 0 disk"]
    fdisk_out := "Disklabel type: dos"
    parted_lines := ["BYT;", "/dev/sda:41943040s:scsi:512:512:msdos::;",
                     "2:2048s:41943039s:41940992s:ext4:"] }

/-- The same device reporting a GPT partition table at the detection
step. -/
def gptWorld : World :=
  { demoWorld with fdisk_out := "Disklabel type: gpt" }

/-! ## Claims -/

/-- Claim C6: for every non-negative sector `x` and positive alignment
`a`, `align_sector x a` is at least `x`, is divisible by `a`, and exceeds
`x` by less than `a`; and the default alignment is exactly 2048
sectors. -/
theorem claim6_align_sector_correct :
    (∀ x a : ℤ, 0 ≤ x → 0 < a →
      x ≤ align_sector x a ∧ a ∣ align_sector x a ∧ align_sector x a - x < a) ∧
    (∀ x : ℤ, align_sector x = align_sector x 2048) := by
  constructor
  · intro x a _ ha
    unfold align_sector
    rw [Int.fdiv_eq_ediv _ ha.le]
    have hmod₀ : 0 ≤ (x + a - 1) % a := Int.emod_nonneg _ ha.ne'
    have hmod₁ : (x + a - 1) % a < a := Int.emod_lt_of_pos _ ha
    have hdiv : a * ((x + a - 1) / a) + (x + a - 1) % a = x + a - 1 :=
      Int.ediv_add_emod _ _
    have hcomm : ((x + a - 1) / a) * a = a * ((x + a - 1) / a) := mul_comm _ _
    exact ⟨by linarith, dvd_mul_left a _, by linarith⟩
  · intro x; rfl

/-- Witness for C6 at `x = 5000`, `a = 2048`. -/
theorem claim6_witness :
    (0 : ℤ) ≤ 5000 ∧ (0 : ℤ) < 2048 ∧
      (5000 ≤ align_sector 5000 2048 ∧ (2048 : ℤ) ∣ align_sector 5000 2048 ∧
        align_sector 5000 2048 - 5000 < 2048) :=
  ⟨by decide, by decide,
    claim6_align_sector_correct.1 5000 2048 (by decide) (by decide)⟩

/-- Claim C7: the GB→sectors conversion equals
`gb * 1024 * 1024 * 1024 // 512` (floor division) for every non-negative
`gb`, is monotonically non-decreasing, and maps 1 GB to 2097152
sectors. -/
theorem claim7_gb_to_sectors_correct :
    (∀ gb : ℤ, 0 ≤ gb → gb_to_sectors gb = (gb * 1024 * 1024 * 1024).fdiv 512) ∧
    (∀ a b : ℤ, 0 ≤ a → a ≤ b → gb_to_sectors a ≤ gb_to_sectors b) ∧
    gb_to_sectors 1 = 2097152 := by
  have key : ∀ g : ℤ, gb_to_sectors g = g * 2097152 := by
    intro g
    unfold gb_to_sectors
    rw [show g * 1024 * 1024 * 1024 = g * 2097152 * 512 by ring]
    exact Int.mul_fdiv_cancel _ (by norm_num)
  refine ⟨fun gb _ => rfl, fun a b _ hab => ?_, by rw [key]; norm_num⟩
  rw [key, key]
  exact mul_le_mul_of_nonneg_right hab (by norm_num)

/-- Witness for C7 at `gb = 1` and the pair `1 ≤ 2`. -/
theorem claim7_witness :
    (0 : ℤ) ≤ 1 ∧ (1 : ℤ) ≤ 2 ∧ gb_to_sectors 1 ≤ gb_to_sectors 2 ∧
      gb_to_sectors 1 = 2097152 :=
  ⟨by decide, by decide,
    claim7_gb_to_sectors_correct.2.1 1 2 (by decide) (by decide),
    claim7_gb_to_sectors_correct.2.2⟩

/-- Claim C9: `system_partition_new_end` is produced by `align_sector`
and is therefore a multiple of 2048, so
`data_partition_start = align_sector (system_partition_new_end + 1)`
equals exactly `system_partition_new_end + 2048`: the data partition's
start strictly exceeds the system partition's end, both boundaries are
2048-aligned, and this is precisely the start sector
`computeDataBounds` produces in every computed plan, regardless of the
requested size. -/
theorem claim9_no_overlap (p2start size_gb total : ℤ) :
    (2048 : ℤ) ∣ align_sector (p2start + gb_to_sectors size_gb) ∧
    align_sector (align_sector (p2start + gb_to_sectors size_gb) + 1)
      = align_sector (p2start + gb_to_sectors size_gb) + 2048 ∧
    align_sector (p2start + gb_to_sectors size_gb)
      < align_sector (align_sector (p2start + gb_to_sectors size_gb) + 1) ∧
    (2048 : ℤ) ∣ align_sector (align_sector (p2start + gb_to_sectors size_gb) + 1) ∧
    computeDataBounds (some total) (align_sector (p2start + gb_to_sectors size_gb))
      = .ok (align_sector (p2start + gb_to_sectors size_gb) + 2048,
             additional_partition_end total) := by
  have hdvd : ∀ x : ℤ, (2048 : ℤ) ∣ align_sector x := fun x => dvd_mul_left _ _
  have hsucc : ∀ e : ℤ, (2048 : ℤ) ∣ e → align_sector (e + 1) = e + 2048 := by
    rintro e ⟨k, rfl⟩
    unfold align_sector
    rw [show 2048 * k + 1 + 2048 - 1 = (k + 1) * 2048 by ring]
    rw [Int.mul_fdiv_cancel _ (by norm_num)]
    ring
  refine ⟨hdvd _, hsucc _ (hdvd _), ?_, ?_, ?_⟩
  · rw [hsucc _ (hdvd _)]; linarith
  · rw [hsucc _ (hdvd _)]
    exact dvd_add (hdvd _) ⟨1, by norm_num⟩
  · unfold computeDataBounds
    rw [hsucc _ (hdvd _)]

/-- Claim C3 counterexample: for a command exiting with code 1, the
executor does not return the result record to the caller — it raises
(`typer.Abort`), refuting "never raises for a non-zero exit code". -/
theorem claim3_counterexample :
    run_command ⟨"", "", 1⟩ = .error .commandFailed := rfl

/-- Claim C3, amended: the executor returns the full
`{stdout, stderr, exit_code}` record if and only if the exit code is
zero; on every non-zero exit code it raises `typer.Abort`
(`utils.py` lines 55-56), so callers obtain tolerate-failure behaviour
only by suffixing the command string with `|| true`. -/
theorem claim3_exit_code_behavior (result : CmdResult) :
    (run_command result = .ok result ↔ result.returncode = 0) ∧
    (run_command result = .error .commandFailed ↔ result.returncode ≠ 0) := by
  unfold run_command
  by_cases h : result.returncode = 0 <;> simp [h]

/-- Witness for the amended C3 at exit code 0. -/
theorem claim3_witness :
    (CmdResult.returncode ⟨"out", "", 0⟩ = 0) ∧
      run_command ⟨"out", "", 0⟩ = .ok ⟨"out", "", 0⟩ :=
  ⟨rfl, (claim3_exit_code_behavior ⟨"out", "", 0⟩).1.mpr rfl⟩

/-- Claim C8: on the synthetic table-print output with device summary
total `1000000s` and the single partition record
`2:2048s:500000s:497953s:ext4:`, the parser yields
`total_sectors = 1000000` and the entry keyed `"2"` with start 2048,
end 500000, length 497953 and filesystem `"ext4"`. -/
theorem claim8_parser_roundtrip :
    get_partition_info "/dev/sda"
        ["BYT;", "/dev/sda:1000000s:scsi:512:512:msdos::;",
         "2:2048s:500000s:497953s:ext4:"]
      = .ok (some 1000000, [("2", ⟨2048, 500000, 497953, "ext4"⟩)]) ∧
    lookupEntry [("2", ⟨2048, 500000, 497953, "ext4"⟩)] "2"
      = some ⟨2048, 500000, 497953, "ext4"⟩ := by
  exact ⟨rfl, by decide⟩

/-- Claim C5: the capacity policy applies its rules in source order —
below the fixed floor of 20 GB yields `tooSmall`; above the capacity
yields `exceedsCapacity`; above half the capacity yields the non-fatal
`largeSizeWarning`; otherwise `ok` — and on the spec's four examples
(capacity 500) it yields `tooSmall`, `exceedsCapacity`,
`largeSizeWarning` and `ok` respectively. -/
theorem claim5_validate_order :
    (∀ (r : ℤ) (c : ℚ), r < MIN_SYSTEM_SIZE → validate r c = .tooSmall) ∧
    (∀ (r : ℤ) (c : ℚ), ¬ r < MIN_SYSTEM_SIZE → (r : ℚ) > c →
      validate r c = .exceedsCapacity) ∧
    (∀ (r : ℤ) (c : ℚ), ¬ r < MIN_SYSTEM_SIZE → ¬ (r : ℚ) > c → (r : ℚ) > c / 2 →
      validate r c = .largeSizeWarning) ∧
    (∀ (r : ℤ) (c : ℚ), ¬ r < MIN_SYSTEM_SIZE → ¬ (r : ℚ) > c → ¬ (r : ℚ) > c / 2 →
      validate r c = .ok) ∧
    validate 19 500 = .tooSmall ∧
    validate 600 500 = .exceedsCapacity ∧
    validate 260 500 = .largeSizeWarning ∧
    validate 100 500 = .ok := by
  refine ⟨?_, ?_, ?_, ?_, ?_, ?_, ?_, ?_⟩
  · intro r c h; simp [validate, h]
  · intro r c h₁ h₂; simp [validate, h₁, h₂]
  · intro r c h₁ h₂ h₃; simp [validate, h₁, h₂, h₃]
  · intro r c h₁ h₂ h₃; simp [validate, h₁, h₂, h₃]
  · norm_num [validate, MIN_SYSTEM_SIZE]
  · norm_num [validate, MIN_SYSTEM_SIZE]
  · norm_num [validate, MIN_SYSTEM_SIZE]
  · norm_num [validate, MIN_SYSTEM_SIZE]

/-- Witness for C5 at `r = 19` below the floor. -/
theorem claim5_witness :
    ((19 : ℤ) < MIN_SYSTEM_SIZE) ∧ validate 19 500 = .tooSmall :=
  ⟨by decide, claim5_validate_order.1 19 500 (by decide)⟩

/-- Helper for C4: the parsing loop never changes `total_sectors` when no
line contains the device identifier. -/
theorem parseLines_total_stable (device : String) :
    ∀ (lines : List String) (t₀ : Option ℤ) (acc : PartitionInfo)
      (total : Option ℤ) (info : PartitionInfo),
      (∀ l ∈ lines, strContains l device = false) →
      parseLines device lines t₀ acc = .ok (total, info) → total = t₀ := by
  intro lines
  induction lines with
  | nil =>
    intro t₀ acc total info _ h
    simp [parseLines] at h
    exact h.1.symm
  | cons line rest ih =>
    intro t₀ acc total info hall h
    have hline : strContains line device = false := hall line (by simp)
    have htail : ∀ l ∈ rest, strContains l device = false :=
      fun l hl => hall l (by simp [hl])
    by_cases hbyt : strContains line "BYT" = true
    · rw [parseLines, if_pos hbyt] at h
      exact ih t₀ acc total info htail h
    · rw [parseLines, if_neg hbyt, if_neg (by simp [hline])] at h
      cases hp : parsePartitionLine line with
      | none => rw [hp] at h; exact absurd h (by simp)
      | some entry =>
        rw [hp] at h
        exact ih t₀ (entry :: acc) total info htail h

/-- Claim C4: when the table-print output contains no device summary
line, a successful parse leaves `total_sectors` undefined (`none`), and
the downstream data-partition boundary computation over such a parse
result fails with the `MissingTableData` condition instead of producing
sector bounds from the null total. -/
theorem claim4_missing_table_data (device : String) (lines : List String)
    (h : ∀ l ∈ lines, strContains l device = false) :
    (∀ (total : Option ℤ) (info : PartitionInfo),
        get_partition_info device lines = .ok (total, info) → total = none) ∧
    (∀ system_partition_new_end : ℤ,
        computeDataBounds none system_partition_new_end
          = .error .missingTableData) := by
  exact ⟨fun total info hok =>
    parseLines_total_stable device lines none [] total info h hok,
    fun _ => rfl⟩

/-- Witness for C4 on a two-line output without a device summary line. -/
theorem claim4_witness :
    strContains "BYT;" "/dev/sda" = false ∧
      computeDataBounds none 41945088 = .error .missingTableData :=
  ⟨by decide,
    (claim4_missing_table_data "/dev/sda"
        ["BYT;", "1:8192s:532479s:524288s:fat32:"] (by decide)).2 41945088⟩

/-- Claim C10: `get_disk_capacity` divides the byte count by `2 ^ 30`
exactly (true division, not floor division), so whenever the byte count
is not a multiple of `2 ^ 30` the capacity is not an integer — despite
the source's declared `int` return type — and both the suggested default
`int(max(capacity / 3, 100))` and the policy comparisons are computed
from this exact fractional capacity rather than from a truncated
integer. -/
theorem claim10_fractional_capacity (size_bytes : ℤ)
    (h : ¬ (2 ^ 30 : ℤ) ∣ size_bytes) :
    get_disk_capacity size_bytes = (size_bytes : ℚ) / 2 ^ 30 ∧
    (¬ ∃ n : ℤ, get_disk_capacity size_bytes = (n : ℚ)) ∧
    suggested_system_capacity size_bytes
      = pyTrunc (max (get_disk_capacity size_bytes / 3) 100) ∧
    (∀ r : ℤ, validate r (get_disk_capacity size_bytes)
      = validate r ((size_bytes : ℚ) / 2 ^ 30)) := by
  have hpow : ((1024 : ℚ) ^ 3) = 2 ^ 30 := by norm_num
  have hcap : get_disk_capacity size_bytes = (size_bytes : ℚ) / 2 ^ 30 := by
    unfold get_disk_capacity; rw [hpow]
  refine ⟨hcap, ?_, rfl, fun r => by rw [hcap]⟩
  rintro ⟨n, hn⟩
  apply h
  rw [hcap, div_eq_iff (by norm_num : ((2 : ℚ) ^ 30) ≠ 0)] at hn
  have hz : size_bytes = n * 2 ^ 30 := by exact_mod_cast hn
  exact ⟨n, by rw [hz]; ring⟩

/-- Witness for C10 at `size_bytes = 1610612736` (`1.5 * 2 ^ 30`). -/
theorem claim10_witness :
    (¬ (2 ^ 30 : ℤ) ∣ 1610612736) ∧
      ¬ ∃ n : ℤ, get_disk_capacity 1610612736 = (n : ℚ) :=
  ⟨by decide, (claim10_fractional_capacity 1610612736 (by decide)).2.1⟩

/-- Claim C1 counterexample: on a 20 GB device with a 20 GB size request
(which passes every check the code actually performs), the computed
geometry violates both claimed invariants —
`data_partition_start = 41947136` is not below
`data_partition_end = 41940992`, and
`system_partition_new_end = 41945088` is not below
`total_sectors = 41943040` — yet the run completes (`none`), no
`InsufficientSpace` rejection occurs, and both partition-mutating
commands (the resize and the inverted-bounds `mkpart`) are issued. -/
theorem claim1_counterexample :
    (manage_partitions demoInputs demoWorld).2 = none ∧
    Cmd.resizepart "/dev/sda" 2 41945088
      ∈ (manage_partitions demoInputs demoWorld).1 ∧
    Cmd.mkpart "/dev/sda" 41947136 41940992
      ∈ (manage_partitions demoInputs demoWorld).1 ∧
    get_partition_info "/dev/sda" demoWorld.parted_lines
      = .ok (some 41943040, [("2", ⟨2048, 41943039, 41940992, "ext4"⟩)]) ∧
    ¬ (41947136 : ℤ) < 41940992 ∧ ¬ (41945088 : ℤ) < 41943040 := by
  have hval : validate 20 (get_disk_capacity 21474836480) = .largeSizeWarning := by
    unfold validate get_disk_capacity MIN_SYSTEM_SIZE
    norm_num
  simp only [manage_partitions, demoInputs, demoWorld]
  rw [hval]
  exact ⟨by decide, by decide, by decide, rfl, by decide, by decide⟩

/-- Claim C1, amended: the plan builder performs no insufficient-space
check.  For every parsed total and partition-2 start, the resize and the
data-partition create commands are computed and issued unconditionally —
also when `data_partition_start ≥ data_partition_end` or
`system_partition_new_end ≥ total_sectors` — and geometry errors are left
for the external `parted` tool to reject at execution time. -/
theorem claim1_no_insufficient_space_check
    (device : String) (total p2start system_size : ℤ) :
    (planAndExecute device (some total) p2start system_size).2 = none ∧
    Cmd.resizepart device 2 (align_sector (p2start + gb_to_sectors system_size))
      ∈ (planAndExecute device (some total) p2start system_size).1 ∧
    Cmd.mkpart device
        (align_sector (align_sector (p2start + gb_to_sectors system_size) + 1))
        (additional_partition_end total)
      ∈ (planAndExecute device (some total) p2start system_size).1 := by
  unfold planAndExecute computeDataBounds
  simp

/-- Claim C2: in every run whose `fdisk -l` report lacks the literal
marker `Disklabel type: dos`, the orchestrator's outcome is an abort, no
resize, partition-create or format command occurs anywhere in the issued
command trace, and if the run reached the detection step at all (the
`fdisk -l` command is in the trace) then the abort reason is
`unsupportedTableType` and the detection command is the last command
issued. -/
theorem claim2_non_dos_aborts (i : Inputs) (w : World)
    (h : strContains w.fdisk_out dosMarker = false) :
    ((manage_partitions i w).2).isSome = true ∧
    (∀ c ∈ (manage_partitions i w).1,
        isResizeCmd c = false ∧ isCreateCmd c = false ∧ isFormatCmd c = false) ∧
    (Cmd.fdiskList i.device ∈ (manage_partitions i w).1 →
      (manage_partitions i w).2 = some .unsupportedTableType ∧
      (manage_partitions i w).1.getLast? = some (Cmd.fdiskList i.device)) := by
  have hdet : ∀ t, phaseDetect i w t =
      (t ++ [Cmd.ddCopy i.image_path i.device, Cmd.partprobe i.device,
             Cmd.sleep5, Cmd.fdiskList i.device], some .unsupportedTableType) := by
    intro t; simp [phaseDetect, h]
  simp only [manage_partitions, phaseEmpty, hdet]
  repeat' split
  all_goals
    simp_all [isResizeCmd, isCreateCmd, isFormatCmd, List.getLast?, List.getLast]

/-- Witness for C2: the demonstration device reporting
`Disklabel type: gpt`. -/
theorem claim2_witness :
    strContains gptWorld.fdisk_out dosMarker = false ∧
      ((manage_partitions demoInputs gptWorld).2).isSome = true :=
  ⟨by decide, (claim2_non_dos_aborts demoInputs gptWorld (by decide)).1⟩

end Bootstrapper
